import Mathlib

/-!
Shallow embedding of the HivePoA desktop agent core
(`src/desktop-agent/src-tauri/src/api.rs` and `kubo.rs`):
the challenge responder, the stats cache, the daemon supervisor,
repository initialization, the earnings ledger and the partial
config update, together with theorems about the spec claims.

Machine bytes are modelled as `Nat` values below 256, 32-bit words as
`Nat` reduced with `% 2 ^ 32`, monetary `f64` amounts as exact `ℚ`,
and instants/timestamps as `Nat`. Subprocess and filesystem effects are
passed in explicitly as `Except String _` arguments.
-/

namespace HivePoA

/-! ### Lowercase hex encoding (the `hex::encode` call in `handle_challenge`) -/

/-- One lowercase hexadecimal digit for a value below 16. -/
def hexDigit (n : ℕ) : Char :=
  if n < 10 then Char.ofNat (48 + n) else Char.ofNat (87 + n)

/-- The two lowercase hex digits of one byte, high nibble first. -/
def byteHex (b : ℕ) : List Char := [hexDigit (b / 16), hexDigit (b % 16)]

/-- `hex::encode`: lowercase hexadecimal rendering of a byte string. -/
def hexEncode (bs : List ℕ) : String := ⟨(bs.map byteHex).flatten⟩

/-- Recognizer for the sixteen lowercase hexadecimal characters: the
decimal digits and the letters from `a` to `f`. -/
def isLowerHexChar (c : Char) : Bool :=
  (48 ≤ c.toNat && c.toNat ≤ 57) || (97 ≤ c.toNat && c.toNat ≤ 102)

/-! ### SHA-256 (the `sha2::Sha256` accumulator used by the challenge handler) -/

/-- Truncation to a 32-bit word. -/
def w32 (n : ℕ) : ℕ := n % 2 ^ 32

/-- 32-bit right rotation. -/
def rotr32 (r x : ℕ) : ℕ := w32 ((x >>> r) ||| (x <<< (32 - r)))

/-- SHA-256 initial hash state (decimal rendering of the standard
constants). -/
def sha256H0 : List ℕ :=
  [1779033703, 3144134277, 1013904242,
   2773480762, 1359893119, 2600822924,
   528734635, 1541459225]

/-- SHA-256 round constants (decimal rendering of the standard table). -/
def sha256K : List ℕ :=
  [1116352408, 1899447441, 3049323471,
   3921009573, 961987163, 1508970993,
   2453635748, 2870763221, 3624381080,
   310598401, 607225278, 1426881987,
   1925078388, 2162078206, 2614888103,
   3248222580, 3835390401, 4022224774,
   264347078, 604807628, 770255983,
   1249150122, 1555081692, 1996064986,
   2554220882, 2821834349, 2952996808,
   3210313671, 3336571891, 3584528711,
   113926993, 338241895, 666307205,
   773529912, 1294757372, 1396182291,
   1695183700, 1986661051, 2177026350,
   2456956037, 2730485921, 2820302411,
   3259730800, 3345764771, 3516065817,
   3600352804, 4094571909, 275423344,
   430227734, 506948616, 659060556,
   883997877, 958139571, 1322822218,
   1537002063, 1747873779, 1955562222,
   2024104815, 2227730452, 2361852424,
   2428436474, 2756734187, 3204031479,
   3329325298]

/-- Big-endian bytes of a 32-bit word. -/
def u32be (n : ℕ) : List ℕ :=
  [(n >>> 24) % 256, (n >>> 16) % 256, (n >>> 8) % 256, n % 256]

/-- Big-endian bytes of a 64-bit length field. -/
def u64be (n : ℕ) : List ℕ :=
  [(n >>> 56) % 256, (n >>> 48) % 256, (n >>> 40) % 256, (n >>> 32) % 256,
   (n >>> 24) % 256, (n >>> 16) % 256, (n >>> 8) % 256, n % 256]

/-- Group a byte string into big-endian 32-bit words. -/
def bytesToWordsBE : List ℕ → List ℕ
  | b0 :: b1 :: b2 :: b3 :: rest =>
      (((b0 * 256 + b1) * 256 + b2) * 256 + b3) :: bytesToWordsBE rest
  | _ => []

/-- SHA-256 small sigma 0. -/
def ssig0 (x : ℕ) : ℕ := (rotr32 7 x) ^^^ (rotr32 18 x) ^^^ (x >>> 3)

/-- SHA-256 small sigma 1. -/
def ssig1 (x : ℕ) : ℕ := (rotr32 17 x) ^^^ (rotr32 19 x) ^^^ (x >>> 10)

/-- SHA-256 big sigma 0. -/
def bsig0 (x : ℕ) : ℕ := (rotr32 2 x) ^^^ (rotr32 13 x) ^^^ (rotr32 22 x)

/-- SHA-256 big sigma 1. -/
def bsig1 (x : ℕ) : ℕ := (rotr32 6 x) ^^^ (rotr32 11 x) ^^^ (rotr32 25 x)

/-- SHA-256 choice function (the complement is taken against the 32-bit
all-ones mask, 4294967295). -/
def sha256Ch (e f g : ℕ) : ℕ := (e &&& f) ^^^ ((e ^^^ 4294967295) &&& g)

/-- SHA-256 majority function. -/
def sha256Maj (a b c : ℕ) : ℕ := (a &&& b) ^^^ ((a &&& c) ^^^ (b &&& c))

/-- Extend a 16-word message schedule by `n` further words. -/
def extendSchedule (ws : List ℕ) : ℕ → List ℕ
  | 0 => ws
  | n + 1 =>
      let prev := extendSchedule ws n
      let len := prev.length
      prev ++ [w32 (prev.getD (len - 16) 0 + ssig0 (prev.getD (len - 15) 0) +
                    prev.getD (len - 7) 0 + ssig1 (prev.getD (len - 2) 0))]

/-- One SHA-256 compression round. -/
def sha256Round (st : List ℕ) (kw : ℕ × ℕ) : List ℕ :=
  match st with
  | [a, b, c, d, e, f, g, h] =>
      let t1 := w32 (h + bsig1 e + sha256Ch e f g + kw.1 + kw.2)
      let t2 := w32 (bsig0 a + sha256Maj a b c)
      [w32 (t1 + t2), a, b, c, w32 (d + t1), e, f, g]
  | _ => st

/-- Process one 64-byte chunk against the running hash state. -/
def sha256Chunk (H : List ℕ) (chunk : List ℕ) : List ℕ :=
  let ws := extendSchedule (bytesToWordsBE chunk) 48
  let st := (sha256K.zip ws).foldl sha256Round H
  (H.zip st).map (fun p => w32 (p.1 + p.2))

/-- Split a byte string into 64-byte chunks. -/
def chunks64 (l : List ℕ) : List (List ℕ) :=
  if h : l = [] then []
  else l.take 64 :: chunks64 (l.drop 64)
termination_by l.length
decreasing_by
  simp only [List.length_drop]
  have : 0 < l.length := List.length_pos.mpr h
  omega

/-- SHA-256 padding: append `0x80`, zero bytes, and the 64-bit bit length. -/
def sha256Pad (msg : List ℕ) : List ℕ :=
  let L := msg.length
  let zeros := (119 - L % 64) % 64
  msg ++ 0x80 :: (List.replicate zeros 0 ++ u64be (8 * L))

/-- The SHA-256 digest (32 bytes) of a byte string. -/
def sha256 (msg : List ℕ) : List ℕ :=
  (((chunks64 (sha256Pad msg)).foldl sha256Chunk sha256H0).map u32be).flatten

/-! ### Challenge responder (`handle_challenge` in `api.rs`)

The block fetch `manager.get_block(&req.cid, i)` is an external subprocess
call; it is passed in as a function `getBlock` from a block index to either
the block's raw bytes or an error string (the `cid` argument is already
applied). The elapsed wall-clock time at the moment of responding is passed
in as `elapsed` (the handler reads `start_time.elapsed()` at each return
point). -/

/-- A challenge HTTP response: status code, `success`, `proof`, optional
`error`, and `latency_ms` (present in every branch of the handler). -/
structure ChallengeResponse where
  status : ℕ
  success : Bool
  proof : String
  error : Option String
  latency_ms : ℕ
deriving DecidableEq

/-- The block-fetching hash loop of `handle_challenge`: `acc` is the byte
stream absorbed by the SHA-256 accumulator so far (initially the salt);
each block of `block_indices` is fetched in order and appended, and the
first failing fetch aborts with its index and error. -/
def runBlocksHash (getBlock : ℕ → Except String (List ℕ)) :
    List ℕ → List ℕ → Except (ℕ × String) (List ℕ)
  | acc, [] => .ok acc
  | acc, i :: rest =>
      match getBlock i with
      | .ok blockData => runBlocksHash getBlock (acc ++ blockData) rest
      | .error e => .error (i, e)

/-- Reference traversal used to state the challenge claims: fetch every
requested block in order, collecting the raw byte strings, aborting at the
first failure with its index and error. -/
def collectBlocks (getBlock : ℕ → Except String (List ℕ)) :
    List ℕ → Except (ℕ × String) (List (List ℕ))
  | [] => .ok []
  | i :: rest =>
      match getBlock i with
      | .ok blockData => (collectBlocks getBlock rest).map (fun ds => blockData :: ds)
      | .error e => .error (i, e)

/-- `handle_challenge`: refuse with 503 when the daemon is not running;
otherwise absorb the salt bytes and then each requested block in order into
a SHA-256 accumulator, aborting with 404 and an empty proof at the first
failed block fetch, and otherwise answering 200 with the lowercase-hex
digest. -/
def handle_challenge (running : Bool) (getBlock : ℕ → Except String (List ℕ))
    (salt : List ℕ) (block_indices : List ℕ) (elapsed : ℕ) : ChallengeResponse :=
  if !running then
    { status := 503, success := false, proof := "",
      error := some "IPFS daemon not running", latency_ms := elapsed }
  else
    match runBlocksHash getBlock salt block_indices with
    | .error (i, e) =>
        { status := 404, success := false, proof := "",
          error := some ("Failed to fetch block " ++ toString i ++ ": " ++ e),
          latency_ms := elapsed }
    | .ok absorbed =>
        { status := 200, success := true, proof := hexEncode (sha256 absorbed),
          error := none, latency_ms := elapsed }

/-! ### Stats cache (`get_repo_stats`, `invalidate_stats_cache`, `pin`,
`unpin` in `kubo.rs`)

Instants are modelled as natural numbers of seconds on a monotonic clock;
`Instant::elapsed` at time `now` for a value captured at `cached_at` is
`now - cached_at`. The expensive `fetch_repo_stats` subprocess query is
passed in as an `Except` value, and `fetch_count` instruments how many
times it has been invoked. -/

/-- A repository statistics snapshot: size in bytes and pin count. -/
structure RepoStats where
  repo_size : ℕ
  num_pins : ℕ
deriving DecidableEq

/-- `STATS_CACHE_TTL`: thirty seconds. -/
def STATS_CACHE_TTL : ℕ := 30

/-- The memo cell: a stats snapshot and the instant it was captured. -/
structure CachedStats where
  stats : RepoStats
  cached_at : ℕ
deriving DecidableEq

/-- The cache field of the manager plus fetch instrumentation. -/
structure StatsCacheState where
  cache : Option CachedStats
  fetch_count : ℕ
deriving DecidableEq

/-- `get_repo_stats`: return the cached snapshot when it is younger than the
TTL; otherwise invoke the underlying fetch, and on success store its result
with the current instant. On a failed fetch the cache is left unchanged. -/
def get_repo_stats (fetchResult : Except String RepoStats) (now : ℕ)
    (s : StatsCacheState) : Except String RepoStats × StatsCacheState :=
  match s.cache with
  | some cached =>
      if now - cached.cached_at < STATS_CACHE_TTL then
        (.ok cached.stats, s)
      else
        match fetchResult with
        | .ok stats =>
            (.ok stats, { cache := some ⟨stats, now⟩, fetch_count := s.fetch_count + 1 })
        | .error e => (.error e, { s with fetch_count := s.fetch_count + 1 })
  | none =>
      match fetchResult with
      | .ok stats =>
          (.ok stats, { cache := some ⟨stats, now⟩, fetch_count := s.fetch_count + 1 })
      | .error e => (.error e, { s with fetch_count := s.fetch_count + 1 })

/-- `invalidate_stats_cache`: clear the memo cell to absent. -/
def invalidate_stats_cache (s : StatsCacheState) : StatsCacheState :=
  { s with cache := none }

/-- `pin`: run the `pin add` subprocess (its outcome is `cmdResult`); on
success invalidate the stats cache, on failure propagate the error with the
cache untouched. -/
def pin (cmdResult : Except String String) (s : StatsCacheState) :
    Except String Unit × StatsCacheState :=
  match cmdResult with
  | .ok _ => (.ok (), invalidate_stats_cache s)
  | .error e => (.error e, s)

/-- `unpin`: run the `pin rm` subprocess; on success invalidate the stats
cache, on failure propagate the error with the cache untouched. -/
def unpin (cmdResult : Except String String) (s : StatsCacheState) :
    Except String Unit × StatsCacheState :=
  match cmdResult with
  | .ok _ => (.ok (), invalidate_stats_cache s)
  | .error e => (.error e, s)

/-! ### Daemon lifecycle (`start_daemon`, `stop_daemon`, `is_running` in
`kubo.rs`)

The child handle is `daemon : Option Unit`; `ready` is the `DAEMON_READY`
atomic flag, written true by the stdout-reader thread when a line holds a
recognized readiness marker. `start_daemon` takes the list of stdout lines
the reader thread has consumed by the time the bounded polling loop ends
(the flag at return time is true exactly when one of them carried a
marker, or it was already set). -/

/-- Supervisor state: tracked child handle and the readiness flag. -/
structure DaemonState where
  daemon : Option Unit
  ready : Bool
deriving DecidableEq

/-- The state before any daemon has been started. -/
def initialDaemonState : DaemonState := { daemon := none, ready := false }

/-- Whether `pat` is an initial segment of `hay`. -/
def charsStartWith : List Char → List Char → Bool
  | _, [] => true
  | [], _ :: _ => false
  | c :: cs, p :: ps => c == p && charsStartWith cs ps

/-- Whether `pat` occurs as a contiguous segment of `hay`. -/
def charsContain : List Char → List Char → Bool
  | [], pat => pat.isEmpty
  | c :: rest, pat => charsStartWith (c :: rest) pat || charsContain rest pat

/-- Substring test (`line.contains(pat)`). -/
def strContains (line pat : String) : Bool := charsContain line.data pat.data

/-- The stdout-reader's readiness test: a line is a readiness marker when
it holds any of the three recognized substrings. -/
def readyMarker (line : String) : Bool :=
  strContains line "Daemon is ready" ||
  strContains line "API server listening" ||
  strContains line "Gateway server listening"

/-- The polling loop bound of `start_daemon`: twenty attempts. -/
def POLL_ATTEMPTS : ℕ := 20

/-- The polling interval of `start_daemon`: 250 milliseconds. -/
def POLL_INTERVAL_MS : ℕ := 250

/-- `start_daemon`: a no-op when a child is already tracked; otherwise
spawn the child and record it, with the readiness flag set exactly when
some consumed stdout line carried a readiness marker (the flag is sticky:
it is only cleared by `stop_daemon`). -/
def start_daemon (stdoutLines : List String) (s : DaemonState) : DaemonState :=
  if s.daemon.isSome then s
  else { daemon := some (), ready := s.ready || stdoutLines.any readyMarker }

/-- `stop_daemon`: kill and drop any tracked child and clear the flag. -/
def stop_daemon (s : DaemonState) : DaemonState :=
  { daemon := none, ready := false }

/-- `is_running`: a child handle is tracked and the readiness flag is set. -/
def is_running (s : DaemonState) : Bool := s.daemon.isSome && s.ready

/-! ### Repository initialization (`initialize`, `apply_desktop_config`,
`read_peer_id` in `kubo.rs`)

The node's configuration document lives in the repository directory; the
filesystem is modelled as `RepoFS`: `config = none` means the file is
absent, `some (.error e)` an existing but unparseable document, and
`some (.ok d)` a parsed document. The `mkdir` and `ipfs init` subprocess
outcomes are passed in (`ipfs init` produces the initial document). -/

/-- The fields of the node's configuration document this system touches,
plus the node-generated peer identity. -/
structure RepoConfigDoc where
  peerID : Option String
  corsOrigin : List String
  corsMethods : List String
  corsHeaders : List String
  storageMax : String
  gcWatermark : ℕ
  apiAddr : String
  gatewayAddr : String
  connLowWater : ℕ
  connHighWater : ℕ
  connGracePeriod : String
  routingType : String
deriving DecidableEq

/-- The repository directory's configuration file. -/
structure RepoFS where
  config : Option (Except String RepoConfigDoc)

/-- The in-memory patch applied by `apply_desktop_config`: CORS headers,
storage limits, loopback API/gateway addresses, connection-manager marks,
and client-only routing, leaving every other field (the identity included)
as generated. -/
def applyDesktopConfigDoc (apiPort gatewayPort : ℕ) (d : RepoConfigDoc) : RepoConfigDoc :=
  { d with
    corsOrigin := ["*"],
    corsMethods := ["PUT", "POST", "GET"],
    corsHeaders := ["Authorization", "X-Requested-With", "Range", "Content-Range"],
    storageMax := "50GB",
    gcWatermark := 90,
    apiAddr := "/ip4/127.0.0.1/tcp/" ++ toString apiPort,
    gatewayAddr := "/ip4/127.0.0.1/tcp/" ++ toString gatewayPort,
    connLowWater := 50,
    connHighWater := 100,
    connGracePeriod := "60s",
    routingType := "dhtclient" }

/-- `read_peer_id`: read and parse the config document; when it carries a
string peer identity record it, otherwise keep the previous value. Fails
when the document is unreadable or unparseable. -/
def read_peer_id (fs : RepoFS) (peer : Option String) : Except String (Option String) :=
  match fs.config with
  | none => .error "Failed to read config"
  | some (.error e) => .error ("Failed to parse config: " ++ e)
  | some (.ok d) =>
      match d.peerID with
      | some p => .ok (some p)
      | none => .ok peer

/-- Outcome of `initialize`: the repository filesystem afterwards, the
manager's peer identity afterwards, and how many times this system wrote
the configuration document. -/
structure InitOutcome where
  fs : RepoFS
  peer_id : Option String
  config_writes : ℕ

/-- The manager's `initialize` (named `initRepository` here because
`initialize` is reserved in Lean): when the config document already
exists, only re-read the peer identity; otherwise create the directory,
run `ipfs init` (which produces the initial document), patch it with the
desktop settings in one write, and read the peer identity back. -/
def initRepository (mkdirResult : Except String Unit)
    (initCmdResult : Except String RepoConfigDoc) (apiPort gatewayPort : ℕ)
    (fs : RepoFS) (peer : Option String) : Except String InitOutcome :=
  match fs.config with
  | some _ => (read_peer_id fs peer).map (fun p => ⟨fs, p, 0⟩)
  | none =>
      match mkdirResult with
      | .error e => .error ("Failed to create repo directory: " ++ e)
      | .ok _ =>
          match initCmdResult with
          | .error e => .error e
          | .ok doc =>
              let fs2 : RepoFS :=
                { config := some (.ok (applyDesktopConfigDoc apiPort gatewayPort doc)) }
              (read_peer_id fs2 peer).map (fun p => ⟨fs2, p, 1⟩)

/-! ### Agent settings and the earnings ledger (`AgentConfig`,
`load_config`, `update_config`, `add_earnings` in `api.rs`)

Monetary `f64` amounts are modelled as exact rationals; Unix timestamps as
naturals. The `save_config` filesystem write is passed in as an `Except`
outcome, and `check_milestone_crossed` / the notification sends (which
live in the `notifications` module, outside the captured sources) appear
as an abstract checker function plus counters of notifications sent. -/

/-- The persisted agent settings and earnings ledger. -/
structure AgentConfig where
  hive_username : Option String
  hive_posting_key_hash : Option String
  auto_pin : Bool
  max_storage_gb : ℕ
  auto_start : Bool
  total_earned_hbd : ℚ
  challenge_count : ℕ
  last_challenge_at : Option ℕ
  notify_on_challenge : Bool
  notify_on_milestone : Bool
  notify_daily_summary : Bool
deriving DecidableEq

/-- `AgentConfig::default()`. -/
def defaultAgentConfig : AgentConfig :=
  { hive_username := none, hive_posting_key_hash := none, auto_pin := true,
    max_storage_gb := 50, auto_start := false, total_earned_hbd := 0,
    challenge_count := 0, last_challenge_at := none,
    notify_on_challenge := true, notify_on_milestone := true,
    notify_daily_summary := true }

/-- `load_config`: an absent or unreadable or unparseable settings file
yields the defaults (never an error); a parsed file yields its record. -/
def load_config (file : Option (Except String AgentConfig)) : AgentConfig :=
  match file with
  | none => defaultAgentConfig
  | some (.error _) => defaultAgentConfig
  | some (.ok cfg) => cfg

/-- The partial-update request body of `POST /config`: every field
optional. -/
structure UpdateConfigRequest where
  hive_username : Option String
  hive_posting_key_hash : Option String
  auto_pin : Option Bool
  max_storage_gb : Option ℕ
  auto_start : Option Bool
  notify_on_challenge : Option Bool
  notify_on_milestone : Option Bool
  notify_daily_summary : Option Bool
deriving DecidableEq

/-- The field-by-field merge of `update_config`: a supplied string field
clears to absent when empty and replaces when non-empty; any supplied
boolean/numeric field replaces; an absent field leaves the prior value. -/
def update_config_merge (cfg : AgentConfig) (req : UpdateConfigRequest) : AgentConfig :=
  let c1 := match req.hive_username with
    | some username =>
        { cfg with hive_username := if username.isEmpty then none else some username }
    | none => cfg
  let c2 := match req.hive_posting_key_hash with
    | some keyHash =>
        { c1 with hive_posting_key_hash := if keyHash.isEmpty then none else some keyHash }
    | none => c1
  let c3 := match req.auto_pin with
    | some b => { c2 with auto_pin := b }
    | none => c2
  let c4 := match req.max_storage_gb with
    | some n => { c3 with max_storage_gb := n }
    | none => c3
  let c5 := match req.auto_start with
    | some b => { c4 with auto_start := b }
    | none => c4
  let c6 := match req.notify_on_challenge with
    | some b => { c5 with notify_on_challenge := b }
    | none => c5
  let c7 := match req.notify_on_milestone with
    | some b => { c6 with notify_on_milestone := b }
    | none => c6
  match req.notify_daily_summary with
  | some b => { c7 with notify_daily_summary := b }
  | none => c7

/-- Outcome of a simple JSON control-plane handler: HTTP status,
`success` flag, optional `error` string. -/
structure HttpOutcome where
  status : ℕ
  success : Bool
  error : Option String
deriving DecidableEq

/-- `update_config` handler: merge the request into the loaded config and
persist it; echo 200 on success and 500 with the error on a failed save
(in which case the persisted config is unchanged). -/
def update_config (cfg : AgentConfig) (req : UpdateConfigRequest)
    (saveResult : Except String Unit) : HttpOutcome × AgentConfig :=
  let merged := update_config_merge cfg req
  match saveResult with
  | .ok _ => (⟨200, true, none⟩, merged)
  | .error e => (⟨500, false, some e⟩, cfg)

/-- The request body of `POST /earnings/add`. -/
structure AddEarningsRequest where
  amount_hbd : ℚ
  challenge_timestamp : Option ℕ
deriving DecidableEq

/-- Outcome of `add_earnings`: HTTP status and `success`, the persisted
config afterwards, and how many challenge/milestone notifications were
sent. -/
structure AddEarningsOutcome where
  status : ℕ
  success : Bool
  saved : AgentConfig
  challenge_notifications : ℕ
  milestone_notifications : ℕ
deriving DecidableEq

/-- `add_earnings`: reject a negative amount with 400 and no change;
otherwise add the amount to the total, bump the challenge count, set the
last-challenge timestamp to the supplied one (falling back to now), and
persist. After a successful save, send one challenge notification when
enabled, and one milestone notification when enabled and the checker
reports a crossed milestone for the old/new totals. A failed save answers
500 and persists nothing. -/
def add_earnings (checkMilestoneCrossed : ℚ → ℚ → Option ℚ)
    (saveResult : Except String Unit) (now : ℕ) (cfg : AgentConfig)
    (req : AddEarningsRequest) : AddEarningsOutcome :=
  if req.amount_hbd < 0 then
    { status := 400, success := false, saved := cfg,
      challenge_notifications := 0, milestone_notifications := 0 }
  else
    let oldTotal := cfg.total_earned_hbd
    let cfg' := { cfg with
      total_earned_hbd := cfg.total_earned_hbd + req.amount_hbd,
      challenge_count := cfg.challenge_count + 1,
      last_challenge_at := req.challenge_timestamp.or (some now) }
    match saveResult with
    | .ok _ =>
        { status := 200, success := true, saved := cfg',
          challenge_notifications := if cfg'.notify_on_challenge then 1 else 0,
          milestone_notifications :=
            if cfg'.notify_on_milestone then
              match checkMilestoneCrossed oldTotal cfg'.total_earned_hbd with
              | some _ => 1
              | none => 0
            else 0 }
    | .error _ =>
        { status := 500, success := false, saved := cfg,
          challenge_notifications := 0, milestone_notifications := 0 }

/-- From the claim's wording: the number of breakpoints of the fixed
ascending set with the pre-update total below them and the post-update
total above them. -/
def crossedBreakpoints (breakpoints : List ℚ) (oldTotal newTotal : ℚ) : ℕ :=
  (breakpoints.filter (fun b => decide (oldTotal < b) && decide (b < newTotal))).length

/-! ### Remaining control-plane handlers used by the error-propagation
claim (`pin_content`, `unpin_content`, `get_pins`, `get_status` in
`api.rs`) -/

/-- A pin listing entry. -/
structure PinInfo where
  cid : String
  name : String
  size : ℕ
deriving DecidableEq

/-- `get_pins` on the manager: parse the quiet `pin ls` output into one
entry per non-empty line (no name or size information), propagating a
subprocess failure. -/
def get_pins (cmdResult : Except String String) : Except String (List PinInfo) :=
  cmdResult.map (fun output =>
    (((output.splitOn "\n").filter (fun line => !line.isEmpty)).map
      (fun cid => ⟨cid.trim, "", 0⟩)))

/-- `pin_content` handler: 200 on success, 500 with the error string on
failure. -/
def pin_content (cmdResult : Except String String) (s : StatsCacheState) :
    HttpOutcome × StatsCacheState :=
  match pin cmdResult s with
  | (.ok _, s') => (⟨200, true, none⟩, s')
  | (.error e, s') => (⟨500, false, some e⟩, s')

/-- `unpin_content` handler: 200 on success, 500 with the error string on
failure. -/
def unpin_content (cmdResult : Except String String) (s : StatsCacheState) :
    HttpOutcome × StatsCacheState :=
  match unpin cmdResult s with
  | (.ok _, s') => (⟨200, true, none⟩, s')
  | (.error e, s') => (⟨500, false, some e⟩, s')

/-- `get_pins` handler: 200 with the entries on success, and 200 with an
empty list when the underlying listing fails. -/
def get_pins_handler (cmdResult : Except String String) : ℕ × List PinInfo :=
  match get_pins cmdResult with
  | .ok pins => (200, pins.map (fun p => ⟨p.cid, p.name, p.size⟩))
  | .error _ => (200, [])

/-- The part of the `/status` body this claim concerns. -/
structure StatusBody where
  running : Bool
  peer_id : Option String
  ipfs_repo_size : ℕ
  num_pinned_files : ℕ
deriving DecidableEq

/-- `get_status` handler: always 200, substituting the zeroed
`RepoStats::default()` when the stats fetch fails
(`get_repo_stats().unwrap_or_default()`). -/
def get_status (running : Bool) (peer : Option String)
    (statsResult : Except String RepoStats) : ℕ × StatusBody :=
  let stats := match statsResult with
    | .ok s => s
    | .error _ => { repo_size := 0, num_pins := 0 }
  (200, ⟨running, peer, stats.repo_size, stats.num_pins⟩)

/-! ## Helper lemmas -/

/-- The fused hashing loop absorbs exactly the collected blocks, in order,
after the initial accumulator contents. -/
theorem runBlocksHash_eq_collect (getBlock : ℕ → Except String (List ℕ))
    (acc : List ℕ) (l : List ℕ) :
    runBlocksHash getBlock acc l =
      (collectBlocks getBlock l).map (fun ds => acc ++ ds.flatten) := by
  induction l generalizing acc with
  | nil => simp [runBlocksHash, collectBlocks, Except.map]
  | cons i rest ih =>
      cases hgb : getBlock i with
      | error e => simp [runBlocksHash, collectBlocks, hgb, Except.map]
      | ok blockData =>
          cases hcr : collectBlocks getBlock rest with
          | error p =>
              simp [runBlocksHash, collectBlocks, hgb, ih, hcr, Except.map]
          | ok ds =>
              simp [runBlocksHash, collectBlocks, hgb, ih, hcr, Except.map]

/-- Each byte of a big-endian word rendering is below 256. -/
theorem u32be_lt_256 (n : ℕ) : ∀ b ∈ u32be n, b < 256 := by
  intro b hb
  simp only [u32be, List.mem_cons, List.not_mem_nil, or_false] at hb
  rcases hb with h | h | h | h <;> subst h <;> exact Nat.mod_lt _ (by norm_num)

/-- Each byte of a SHA-256 digest is below 256. -/
theorem sha256_bytes_lt_256 (msg : List ℕ) : ∀ b ∈ sha256 msg, b < 256 := by
  intro b hb
  simp only [sha256, List.mem_flatten, List.mem_map] at hb
  obtain ⟨l, ⟨w, _, rfl⟩, hbl⟩ := hb
  exact u32be_lt_256 w b hbl

/-- `hexDigit` of a nibble is a lowercase hexadecimal character. -/
theorem hexDigit_lower (n : ℕ) (h : n < 16) : isLowerHexChar (hexDigit n) = true := by
  interval_cases n <;> decide

/-- Every character of a hex encoding of genuine bytes is lowercase hex. -/
theorem hexEncode_lower (bs : List ℕ) (h : ∀ b ∈ bs, b < 256) :
    ∀ c ∈ (hexEncode bs).data, isLowerHexChar c = true := by
  intro c hc
  have hc' : c ∈ (bs.map byteHex).flatten := hc
  simp only [List.mem_flatten, List.mem_map] at hc'
  obtain ⟨l, ⟨b, hb, rfl⟩, hcl⟩ := hc'
  have hb256 := h b hb
  simp only [byteHex, List.mem_cons, List.not_mem_nil, or_false] at hcl
  rcases hcl with rfl | rfl
  · exact hexDigit_lower _ (by omega)
  · exact hexDigit_lower _ (by omega)

/-! ## Claim theorems -/

/-- C1: with the node running, the handler absorbs the salt bytes first and
then each requested block's raw bytes in the caller-given index order into
one SHA-256 accumulator; a failed block fetch aborts the whole operation
with an empty proof and an error naming the failing index, and otherwise
the proof is the finalized digest in lowercase hexadecimal. -/
theorem challenge_handler_spec (getBlock : ℕ → Except String (List ℕ))
    (salt block_indices : List ℕ) (elapsed : ℕ) :
    (∀ ds, collectBlocks getBlock block_indices = .ok ds →
      handle_challenge true getBlock salt block_indices elapsed =
        { status := 200, success := true,
          proof := hexEncode (sha256 (salt ++ ds.flatten)),
          error := none, latency_ms := elapsed }) ∧
    (∀ i e, collectBlocks getBlock block_indices = .error (i, e) →
      handle_challenge true getBlock salt block_indices elapsed =
        { status := 404, success := false, proof := "",
          error := some ("Failed to fetch block " ++ toString i ++ ": " ++ e),
          latency_ms := elapsed }) ∧
    (∀ c ∈ (handle_challenge true getBlock salt block_indices elapsed).proof.data,
      isLowerHexChar c = true) := by
  have hok : ∀ ds, collectBlocks getBlock block_indices = .ok ds →
      handle_challenge true getBlock salt block_indices elapsed =
        { status := 200, success := true,
          proof := hexEncode (sha256 (salt ++ ds.flatten)),
          error := none, latency_ms := elapsed } := by
    intro ds hds
    simp [handle_challenge, runBlocksHash_eq_collect, hds, Except.map]
  have herr : ∀ i e, collectBlocks getBlock block_indices = .error (i, e) →
      handle_challenge true getBlock salt block_indices elapsed =
        { status := 404, success := false, proof := "",
          error := some ("Failed to fetch block " ++ toString i ++ ": " ++ e),
          latency_ms := elapsed } := by
    intro i e hie
    simp [handle_challenge, runBlocksHash_eq_collect, hie, Except.map]
  refine ⟨hok, herr, ?_⟩
  intro c hc
  cases hr : collectBlocks getBlock block_indices with
  | ok ds =>
      rw [hok ds hr] at hc
      exact hexEncode_lower _ (sha256_bytes_lt_256 _) c hc
  | error p =>
      obtain ⟨i, e⟩ := p
      rw [herr i e hr] at hc
      simp at hc

/-- Concrete block oracle used by witnesses: blocks 0 and 1 exist, all
others are missing. -/
def witnessGetBlock : ℕ → Except String (List ℕ) := fun i =>
  if i = 0 then .ok [1, 2] else if i = 1 then .ok [3] else .error "block not found"

/-- Witness for C1 at a concrete request. -/
theorem challenge_handler_spec_witness :
    collectBlocks witnessGetBlock [0, 1] = .ok [[1, 2], [3]] ∧
    handle_challenge true witnessGetBlock [9, 9] [0, 1] 7 =
      { status := 200, success := true,
        proof := hexEncode (sha256 ([9, 9] ++ [[1, 2], [3]].flatten)),
        error := none, latency_ms := 7 } :=
  ⟨rfl, (challenge_handler_spec witnessGetBlock [9, 9] [0, 1] 7).1 [[1, 2], [3]] rfl⟩

/-- C6: a challenge received while the daemon is not running fails
immediately with 503, `success := false`, a zero-length proof, and the
elapsed time; and `latency_ms` carries the elapsed time in every branch of
the handler. -/
theorem challenge_unavailable_spec (running : Bool)
    (getBlock : ℕ → Except String (List ℕ)) (salt block_indices : List ℕ)
    (elapsed : ℕ) :
    (running = false →
      handle_challenge running getBlock salt block_indices elapsed =
        { status := 503, success := false, proof := "",
          error := some "IPFS daemon not running", latency_ms := elapsed }) ∧
    (handle_challenge running getBlock salt block_indices elapsed).latency_ms
      = elapsed := by
  constructor
  · rintro rfl
    rfl
  · cases running with
    | false => rfl
    | true =>
        rcases hr : runBlocksHash getBlock salt block_indices with ⟨i, e⟩ | a <;>
          simp [handle_challenge, hr]

/-- Witness for C6 at a concrete request with the daemon down. -/
theorem challenge_unavailable_spec_witness :
    (false = false) ∧
    handle_challenge false witnessGetBlock [9] [0] 5 =
      { status := 503, success := false, proof := "",
        error := some "IPFS daemon not running", latency_ms := 5 } :=
  ⟨rfl, (challenge_unavailable_spec false witnessGetBlock [9] [0] 5).1 rfl⟩

/-- C2: a cached snapshot strictly younger than the 30-second TTL is
returned with no underlying fetch; with no snapshot, or an expired one,
the fetch runs (fetch count up by one) and a successful result is stored
with the current instant and returned; hence two reads within one TTL
window starting from an empty cache invoke exactly one fetch. -/
theorem stats_cache_ttl_spec (f f2 : Except String RepoStats)
    (now t0 t1 : ℕ) (s : StatsCacheState) (r : RepoStats) :
    (∀ c, s.cache = some c → now - c.cached_at < STATS_CACHE_TTL →
      get_repo_stats f now s = (.ok c.stats, s)) ∧
    (s.cache = none →
      (get_repo_stats f now s).2.fetch_count = s.fetch_count + 1 ∧
      (f = .ok r → get_repo_stats f now s =
        (.ok r, ⟨some ⟨r, now⟩, s.fetch_count + 1⟩))) ∧
    (∀ c, s.cache = some c → STATS_CACHE_TTL ≤ now - c.cached_at →
      (get_repo_stats f now s).2.fetch_count = s.fetch_count + 1 ∧
      (f = .ok r → get_repo_stats f now s =
        (.ok r, ⟨some ⟨r, now⟩, s.fetch_count + 1⟩))) ∧
    (s.cache = none → f = .ok r → t0 ≤ t1 → t1 - t0 < STATS_CACHE_TTL →
      get_repo_stats f2 t1 (get_repo_stats f t0 s).2 =
        (.ok r, (get_repo_stats f t0 s).2) ∧
      (get_repo_stats f2 t1 (get_repo_stats f t0 s).2).2.fetch_count =
        s.fetch_count + 1) := by
  refine ⟨?_, ?_, ?_, ?_⟩
  · intro c hc hlt
    simp [get_repo_stats, hc, hlt]
  · intro hnone
    constructor
    · cases f <;> simp [get_repo_stats, hnone]
    · rintro rfl
      simp [get_repo_stats, hnone]
  · intro c hc hge
    have hnlt : ¬(now - c.cached_at < STATS_CACHE_TTL) := not_lt.mpr hge
    constructor
    · cases f <;> simp [get_repo_stats, hc, hnlt]
    · rintro rfl
      simp [get_repo_stats, hc, hnlt]
  · rintro hnone rfl hle hlt
    have h1 : get_repo_stats (.ok r) t0 s =
        (.ok r, ⟨some ⟨r, t0⟩, s.fetch_count + 1⟩) := by
      simp [get_repo_stats, hnone]
    rw [h1]
    refine ⟨?_, ?_⟩ <;> simp [get_repo_stats, hlt]

/-- Witness for C2: empty cache, a fetch at instant 0, a second read at
instant 29 — still inside the TTL window — returns the fetched snapshot
and leaves the fetch count at one. -/
theorem stats_cache_ttl_spec_witness :
    ((⟨none, 0⟩ : StatsCacheState).cache = none) ∧
    ((0 : ℕ) ≤ 29) ∧ ((29 : ℕ) - 0 < STATS_CACHE_TTL) ∧
    (get_repo_stats (.error "down") 29
        (get_repo_stats (.ok ⟨10, 2⟩) 0 ⟨none, 0⟩).2 =
      (.ok ⟨10, 2⟩, (get_repo_stats (.ok ⟨10, 2⟩) 0 ⟨none, 0⟩).2) ∧
    (get_repo_stats (.error "down") 29
        (get_repo_stats (.ok ⟨10, 2⟩) 0 ⟨none, 0⟩).2).2.fetch_count = 0 + 1) :=
  ⟨rfl, by decide, by decide,
    (stats_cache_ttl_spec (.ok ⟨10, 2⟩) (.error "down") 0 0 29 ⟨none, 0⟩
      ⟨10, 2⟩).2.2.2 rfl rfl (by decide) (by decide)⟩

/-- C3: a successful pin or unpin clears the stats cache to absent
unconditionally, and the stats read that follows invokes the underlying
fetch again — for every prior state, so in particular also when the prior
snapshot was still inside its TTL window. -/
theorem cache_invalidation_spec (o e : String) (f : Except String RepoStats)
    (now : ℕ) (s : StatsCacheState) :
    pin (.ok o) s = (.ok (), { s with cache := none }) ∧
    unpin (.ok o) s = (.ok (), { s with cache := none }) ∧
    (get_repo_stats f now (pin (.ok o) s).2).2.fetch_count =
      s.fetch_count + 1 ∧
    (get_repo_stats f now (unpin (.ok o) s).2).2.fetch_count =
      s.fetch_count + 1 := by
  refine ⟨rfl, rfl, ?_, ?_⟩ <;>
    cases f <;> simp [get_repo_stats, pin, unpin, invalidate_stats_cache]

/-- C7: `is_running` is true exactly when a child handle is tracked and the
readiness flag is set; it is false in the initial state; and it stays false
after `start_daemon` returns when no consumed stdout line carried a
readiness marker within the polling budget (20 attempts at 250 ms), even
though a child handle is then tracked. -/
theorem is_running_gating_spec (s : DaemonState) (lines : List String) :
    (is_running s = true ↔ s.daemon.isSome = true ∧ s.ready = true) ∧
    is_running initialDaemonState = false ∧
    (lines.all (fun l => !readyMarker l) = true →
      is_running (start_daemon lines initialDaemonState) = false ∧
      (start_daemon lines initialDaemonState).daemon.isSome = true) ∧
    POLL_ATTEMPTS = 20 ∧ POLL_INTERVAL_MS = 250 := by
  refine ⟨?_, rfl, ?_, rfl, rfl⟩
  · simp [is_running]
  · intro h
    have hany : lines.any readyMarker = false := by
      simp only [List.all_eq_true, Bool.not_eq_true'] at h
      simp [List.any_eq_false]
      intro l hl
      simp [h l hl]
    constructor
    · simp [start_daemon, initialDaemonState, is_running, hany]
    · simp [start_daemon, initialDaemonState]

/-- Witness for C7: two startup lines without a readiness marker leave
`is_running` false although a child handle is tracked. -/
theorem is_running_gating_spec_witness :
    (["Initializing daemon...", "Swarm listening on /ip4/127.0.0.1/tcp/4001"].all
        (fun l => !readyMarker l) = true) ∧
    (is_running (start_daemon
        ["Initializing daemon...", "Swarm listening on /ip4/127.0.0.1/tcp/4001"]
        initialDaemonState) = false ∧
      (start_daemon
        ["Initializing daemon...", "Swarm listening on /ip4/127.0.0.1/tcp/4001"]
        initialDaemonState).daemon.isSome = true) :=
  ⟨by decide,
    (is_running_gating_spec initialDaemonState
      ["Initializing daemon...", "Swarm listening on /ip4/127.0.0.1/tcp/4001"]).2.2.1
      (by decide)⟩

/-- C8: when the repository's config document already exists and parses,
`initialize` only re-reads the peer identity: it succeeds without writing
the config document, leaves the filesystem unchanged, and a second call
returns the same peer identity, again with zero config writes. -/
theorem initialize_idempotent_spec (m m2 : Except String Unit)
    (i i2 : Except String RepoConfigDoc) (ap gp : ℕ) (fs : RepoFS)
    (peer : Option String) (d : RepoConfigDoc)
    (hd : fs.config = some (.ok d)) :
    ∃ r1, initRepository m i ap gp fs peer = .ok r1 ∧
      r1.fs = fs ∧ r1.config_writes = 0 ∧
      initRepository m2 i2 ap gp r1.fs r1.peer_id =
        .ok ⟨r1.fs, r1.peer_id, 0⟩ := by
  cases hp : d.peerID with
  | some p =>
      refine ⟨⟨fs, some p, 0⟩, ?_, rfl, rfl, ?_⟩ <;>
        simp [initRepository, read_peer_id, hd, hp, Except.map]
  | none =>
      refine ⟨⟨fs, peer, 0⟩, ?_, rfl, rfl, ?_⟩ <;>
        simp [initRepository, read_peer_id, hd, hp, Except.map]

/-- A concrete parsed config document for the initialization witness. -/
def witnessConfigDoc : RepoConfigDoc :=
  { peerID := some "12D3KooWExamplePeer", corsOrigin := [], corsMethods := [],
    corsHeaders := [], storageMax := "10GB", gcWatermark := 50,
    apiAddr := "/ip4/127.0.0.1/tcp/5001",
    gatewayAddr := "/ip4/127.0.0.1/tcp/8080", connLowWater := 600,
    connHighWater := 900, connGracePeriod := "20s", routingType := "dht" }

/-- Witness for C8 on a repository whose config document exists. -/
theorem initialize_idempotent_spec_witness :
    (RepoFS.mk (some (.ok witnessConfigDoc))).config =
      some (.ok witnessConfigDoc) ∧
    ∃ r1, initRepository (.ok ()) (.ok witnessConfigDoc) 5001 8080
        (RepoFS.mk (some (.ok witnessConfigDoc))) none = .ok r1 ∧
      r1.fs = RepoFS.mk (some (.ok witnessConfigDoc)) ∧
      r1.config_writes = 0 ∧
      initRepository (.ok ()) (.ok witnessConfigDoc) 5001 8080 r1.fs
          r1.peer_id = .ok ⟨r1.fs, r1.peer_id, 0⟩ :=
  ⟨rfl, initialize_idempotent_spec (.ok ()) (.ok ()) (.ok witnessConfigDoc)
    (.ok witnessConfigDoc) 5001 8080 (RepoFS.mk (some (.ok witnessConfigDoc)))
    none witnessConfigDoc rfl⟩

/-- C5 counterexample: with the current time 100 and a supplied timestamp
0, the code records the supplied timestamp 0 as last-challenge-at, not the
later of the two instants (100). -/
theorem add_earnings_later_counterexample :
    (add_earnings (fun _ _ => none) (.ok ()) 100 defaultAgentConfig
        ⟨1, some 0⟩).saved.last_challenge_at = some 0 ∧
    (0 : ℕ) ≠ max 0 100 := by
  constructor
  · rfl
  · decide

/-- C5 (amended): a negative amount is rejected with a validation error and
no change; a non-negative amount, once saved, adds exactly the amount to
the total, bumps the challenge count by exactly one, and sets
last-challenge-at to the supplied timestamp when present, otherwise to the
current time. -/
theorem add_earnings_spec (chk : ℚ → ℚ → Option ℚ)
    (save : Except String Unit) (now : ℕ) (cfg : AgentConfig)
    (req : AddEarningsRequest) :
    (req.amount_hbd < 0 →
      add_earnings chk save now cfg req =
        { status := 400, success := false, saved := cfg,
          challenge_notifications := 0, milestone_notifications := 0 }) ∧
    (0 ≤ req.amount_hbd → save = .ok () →
      (add_earnings chk save now cfg req).status = 200 ∧
      (add_earnings chk save now cfg req).success = true ∧
      (add_earnings chk save now cfg req).saved.total_earned_hbd =
        cfg.total_earned_hbd + req.amount_hbd ∧
      (add_earnings chk save now cfg req).saved.challenge_count =
        cfg.challenge_count + 1 ∧
      (add_earnings chk save now cfg req).saved.last_challenge_at =
        some (req.challenge_timestamp.getD now)) := by
  constructor
  · intro h
    simp [add_earnings, h]
  · rintro h rfl
    have hn : ¬(req.amount_hbd < 0) := not_lt.mpr h
    cases hts : req.challenge_timestamp <;>
      simp [add_earnings, hn, hts, Option.or]

/-- Witness for C5 at a concrete addition of 2 HBD with no supplied
timestamp. -/
theorem add_earnings_spec_witness :
    ((0 : ℚ) ≤ (2 : ℚ)) ∧
    ((add_earnings (fun _ _ => none) (.ok ()) 40 defaultAgentConfig
        ⟨2, none⟩).status = 200 ∧
      (add_earnings (fun _ _ => none) (.ok ()) 40 defaultAgentConfig
        ⟨2, none⟩).success = true ∧
      (add_earnings (fun _ _ => none) (.ok ()) 40 defaultAgentConfig
        ⟨2, none⟩).saved.total_earned_hbd =
        defaultAgentConfig.total_earned_hbd + 2 ∧
      (add_earnings (fun _ _ => none) (.ok ()) 40 defaultAgentConfig
        ⟨2, none⟩).saved.challenge_count =
        defaultAgentConfig.challenge_count + 1 ∧
      (add_earnings (fun _ _ => none) (.ok ()) 40 defaultAgentConfig
        ⟨2, none⟩).saved.last_challenge_at =
        some ((none : Option ℕ).getD 40)) :=
  ⟨by norm_num,
    (add_earnings_spec (fun _ _ => none) (.ok ()) 40 defaultAgentConfig
      ⟨2, none⟩).2 (by norm_num) rfl⟩

/-- C4 counterexample: an addition lifting the total from 0 to 10 crosses
both breakpoints of the ascending set `[1, 5]`, yet the handler sends
exactly one milestone notification, not one per crossed breakpoint. -/
theorem milestone_multiplicity_counterexample :
    crossedBreakpoints [1, 5] 0 10 = 2 ∧
    (add_earnings (fun _ newTotal => some newTotal) (.ok ()) 0
        defaultAgentConfig ⟨10, none⟩).milestone_notifications = 1 := by
  constructor <;> rfl

/-- C4 (amended): every earnings addition sends at most one milestone
notification, whatever the milestone checker reports — the handler holds a
single optional crossed milestone, so an addition that jumps several
breakpoints still notifies at most once. -/
theorem milestone_at_most_one (chk : ℚ → ℚ → Option ℚ)
    (save : Except String Unit) (now : ℕ) (cfg : AgentConfig)
    (req : AddEarningsRequest) :
    (add_earnings chk save now cfg req).milestone_notifications ≤ 1 := by
  unfold add_earnings
  split
  · simp
  · cases save with
    | error e => simp
    | ok u =>
        simp only
        split
        · cases chk cfg.total_earned_hbd
            (cfg.total_earned_hbd + req.amount_hbd) <;> simp
        · simp

/-- C9 counterexample: a failed pin listing is answered by `GET /pins` as a
plain 200 with an empty list (no `success:false`, no error string), and a
failed stats fetch is answered by `GET /status` as a 200 with zeroed
default stats — both failures are silently swallowed. -/
theorem error_surfacing_counterexample :
    get_pins_handler (.error "pin ls failed") = (200, []) ∧
    get_status true none (.error "repo stat failed") =
      (200, ⟨true, none, 0, 0⟩) :=
  ⟨rfl, rfl⟩

/-- C9 (amended): pin, unpin, config update and earnings addition surface
an underlying subprocess or filesystem failure as a 500 response with
`success:false` and the error string, and agent-settings loading recovers
locally to the defaults; but `GET /pins` maps a failed listing to a 200
with an empty list and `GET /status` substitutes zeroed default stats on a
failed fetch, so those two reads swallow the failure. -/
theorem error_surfacing_spec (e : String) (s : StatsCacheState)
    (cfg : AgentConfig) (req : UpdateConfigRequest)
    (chk : ℚ → ℚ → Option ℚ) (now : ℕ) (areq : AddEarningsRequest)
    (running : Bool) (peer : Option String) :
    (pin_content (.error e) s).1 = ⟨500, false, some e⟩ ∧
    (unpin_content (.error e) s).1 = ⟨500, false, some e⟩ ∧
    (update_config cfg req (.error e)).1 = ⟨500, false, some e⟩ ∧
    (0 ≤ areq.amount_hbd →
      (add_earnings chk (.error e) now cfg areq).status = 500 ∧
      (add_earnings chk (.error e) now cfg areq).success = false) ∧
    load_config (some (.error e)) = defaultAgentConfig ∧
    get_pins_handler (.error e) = (200, []) ∧
    get_status running peer (.error e) = (200, ⟨running, peer, 0, 0⟩) := by
  refine ⟨rfl, rfl, rfl, ?_, rfl, rfl, rfl⟩
  intro h
  have hn : ¬(areq.amount_hbd < 0) := not_lt.mpr h
  constructor <;> simp [add_earnings, hn]

/-- Witness for C9 with a concrete failure string and a concrete
non-negative earnings request. -/
theorem error_surfacing_spec_witness :
    ((0 : ℚ) ≤ (1 : ℚ)) ∧
    ((add_earnings (fun _ _ => none) (.error "disk full") 9
        defaultAgentConfig ⟨1, none⟩).status = 500 ∧
      (add_earnings (fun _ _ => none) (.error "disk full") 9
        defaultAgentConfig ⟨1, none⟩).success = false) :=
  ⟨by norm_num,
    (error_surfacing_spec "disk full" ⟨none, 0⟩ defaultAgentConfig
      ⟨none, none, none, none, none, none, none, none⟩ (fun _ _ => none) 9
      ⟨1, none⟩ false none).2.2.2.1 (by norm_num)⟩

/-- The field-wise characterization of the sequential merge of
`update_config`. -/
theorem update_config_merge_eq (cfg : AgentConfig) (req : UpdateConfigRequest) :
    update_config_merge cfg req =
      { cfg with
        hive_username :=
          match req.hive_username with
          | some u => if u.isEmpty then none else some u
          | none => cfg.hive_username,
        hive_posting_key_hash :=
          match req.hive_posting_key_hash with
          | some k => if k.isEmpty then none else some k
          | none => cfg.hive_posting_key_hash,
        auto_pin := req.auto_pin.getD cfg.auto_pin,
        max_storage_gb := req.max_storage_gb.getD cfg.max_storage_gb,
        auto_start := req.auto_start.getD cfg.auto_start,
        notify_on_challenge :=
          req.notify_on_challenge.getD cfg.notify_on_challenge,
        notify_on_milestone :=
          req.notify_on_milestone.getD cfg.notify_on_milestone,
        notify_daily_summary :=
          req.notify_daily_summary.getD cfg.notify_daily_summary } := by
  rcases req with ⟨hu, hk, ap, ms, a, nc, nm, nd⟩
  cases hu <;> cases hk <;> cases ap <;> cases ms <;> cases a <;>
    cases nc <;> cases nm <;> cases nd <;> rfl

/-- C10: in a partial config update, an empty-string `hive_username` or
`hive_posting_key_hash` clears the stored field to absent, a non-empty
string replaces it, an omitted field is left unchanged, every other
omitted field keeps its prior value, and the ledger fields are never
touched; the handler persists exactly this merge on a successful save. -/
theorem update_config_partial_spec (cfg : AgentConfig)
    (req : UpdateConfigRequest) :
    (req.hive_username = some "" →
      (update_config_merge cfg req).hive_username = none) ∧
    (∀ u, req.hive_username = some u → u ≠ "" →
      (update_config_merge cfg req).hive_username = some u) ∧
    (req.hive_username = none →
      (update_config_merge cfg req).hive_username = cfg.hive_username) ∧
    (req.hive_posting_key_hash = some "" →
      (update_config_merge cfg req).hive_posting_key_hash = none) ∧
    (∀ k, req.hive_posting_key_hash = some k → k ≠ "" →
      (update_config_merge cfg req).hive_posting_key_hash = some k) ∧
    (req.hive_posting_key_hash = none →
      (update_config_merge cfg req).hive_posting_key_hash =
        cfg.hive_posting_key_hash) ∧
    (req.auto_pin = none →
      (update_config_merge cfg req).auto_pin = cfg.auto_pin) ∧
    (req.max_storage_gb = none →
      (update_config_merge cfg req).max_storage_gb = cfg.max_storage_gb) ∧
    (req.auto_start = none →
      (update_config_merge cfg req).auto_start = cfg.auto_start) ∧
    (req.notify_on_challenge = none →
      (update_config_merge cfg req).notify_on_challenge =
        cfg.notify_on_challenge) ∧
    (req.notify_on_milestone = none →
      (update_config_merge cfg req).notify_on_milestone =
        cfg.notify_on_milestone) ∧
    (req.notify_daily_summary = none →
      (update_config_merge cfg req).notify_daily_summary =
        cfg.notify_daily_summary) ∧
    (update_config_merge cfg req).total_earned_hbd = cfg.total_earned_hbd ∧
    (update_config_merge cfg req).challenge_count = cfg.challenge_count ∧
    (update_config_merge cfg req).last_challenge_at = cfg.last_challenge_at ∧
    (update_config cfg req (.ok ())).2 = update_config_merge cfg req := by
  rw [update_config_merge_eq]
  refine ⟨?_, ?_, ?_, ?_, ?_, ?_, ?_, ?_, ?_, ?_, ?_, ?_, rfl, rfl, rfl, ?_⟩
  · intro h
    simp [h]
    decide
  · intro u h hne
    have : u.isEmpty = false := by
      cases hq : u.isEmpty with
      | true => exact absurd ((String.isEmpty_iff u).mp hq) hne
      | false => rfl
    simp [h, this]
  · intro h
    simp [h]
  · intro h
    simp [h]
    decide
  · intro k h hne
    have : k.isEmpty = false := by
      cases hq : k.isEmpty with
      | true => exact absurd ((String.isEmpty_iff k).mp hq) hne
      | false => rfl
    simp [h, this]
  · intro h
    simp [h]
  · intro h
    simp [h]
  · intro h
    simp [h]
  · intro h
    simp [h]
  · intro h
    simp [h]
  · intro h
    simp [h]
  · intro h
    simp [h]
  · rw [update_config, update_config_merge_eq]

/-- Concrete prior config for the C10 witness. -/
def witnessPriorConfig : AgentConfig :=
  { defaultAgentConfig with
    hive_username := some "alice",
    hive_posting_key_hash := some "oldhash", max_storage_gb := 20 }

/-- Concrete partial-update request for the C10 witness: clear the
username with an empty string, replace the key hash, omit everything
else. -/
def witnessUpdateReq : UpdateConfigRequest :=
  { hive_username := some "", hive_posting_key_hash := some "newhash",
    auto_pin := none, max_storage_gb := none, auto_start := none,
    notify_on_challenge := none, notify_on_milestone := none,
    notify_daily_summary := none }

/-- Witness for C10 at the concrete prior config and request. -/
theorem update_config_partial_spec_witness :
    (update_config_merge witnessPriorConfig witnessUpdateReq).hive_username
        = none ∧
    (update_config_merge witnessPriorConfig
        witnessUpdateReq).hive_posting_key_hash = some "newhash" ∧
    (update_config_merge witnessPriorConfig witnessUpdateReq).max_storage_gb
        = witnessPriorConfig.max_storage_gb :=
  ⟨(update_config_partial_spec witnessPriorConfig witnessUpdateReq).1 rfl,
    (update_config_partial_spec witnessPriorConfig
      witnessUpdateReq).2.2.2.2.1 "newhash" rfl (by decide),
    (update_config_partial_spec witnessPriorConfig
      witnessUpdateReq).2.2.2.2.2.2.2.1 rfl⟩

end HivePoA
